import Mathlib

/-!
Verification development for the k6 module-loading layer (`js/modules`):
a shallow embedding of the resolver/cache (`resolver.go`), the legacy
`require` implementation (`require_impl.go`), the commonJS module wrapper
(`cjsmodule.go`), and the two host ("go") module wrappers (`gomodule.go`,
`gomodule_basic.go`), together with theorems about their behaviour.

Machine-level aspects are modelled explicitly:
  - `goja.Value` object identity is modelled by allocation ids drawn from a
    counter threaded through the functions that can allocate;
  - Go `map` assignment is modelled by `mapSet` on association lists
    (overwrite semantics) and Go map lookup by `mapGet`;
  - a Go `panic` is modelled as a dedicated `fatal` outcome constructor;
  - the external collaborators (loader.Resolve, the FileLoader, the
    compiler, goja's ModuleFromAST) are parameters of the model, matching
    the specification's view of them as interfaces.
-/

namespace K6Modules

/-- Canonical locations (`url.URL.String()` results) are modelled as strings. -/
abbrev Locator := String

/-- Errors are modelled by their message strings. -/
abbrev Err := String

/-- Raw source bytes. -/
abbrev Data := String

/-- Compiled program representation (opaque to this layer). -/
abbrev Prog := String

/-- Decidable equality for `Except`, needed to evaluate the models on
concrete inputs. -/
instance {ε α : Type} [DecidableEq ε] [DecidableEq α] : DecidableEq (Except ε α) := fun x y =>
  match x, y with
  | .error a, .error b =>
    if h : a = b then isTrue (by rw [h])
    else isFalse (fun hc => h (by injection hc))
  | .error _, .ok _ => isFalse (fun hc => Except.noConfusion hc)
  | .ok _, .error _ => isFalse (fun hc => Except.noConfusion hc)
  | .ok a, .ok b =>
    if h : a = b then isTrue (by rw [h])
    else isFalse (fun hc => h (by injection hc))

/-- Association-list lookup with Go map semantics (first match; keys are
kept unique by `mapSet`). -/
def mapGet {β : Type} (m : List (String × β)) (k : String) : Option β :=
  match m with
  | [] => none
  | (k', v') :: rest => if k' = k then some v' else mapGet rest k

/-- Association-list update with Go map assignment (overwrite) semantics. -/
def mapSet {β : Type} (m : List (String × β)) (k : String) (v : β) : List (String × β) :=
  match m with
  | [] => [(k, v)]
  | (k', v') :: rest => if k' = k then (k, v) :: rest else (k', v') :: mapSet rest k v

/-- Model of Go's strings.HasPrefix over the character lists of the strings. -/
def strHasPre (p s : String) : Bool := s.toList.take p.toList.length = p.toList

/-- The built-in namespace test from `ModuleResolver.resolve` and
`LegacyRequireImpl.Require`: `arg == "k6" || strings.HasPrefix(arg, "k6/")`. -/
def isBuiltinSpec (s : String) : Bool := s = "k6" || strHasPre "k6/" s

/-- `moduleCacheElement`: a resolution-cache entry `{mod, err}`; module
records are identified by allocation ids (`Option Nat` models the possibly
nil `goja.ModuleRecord` interface value). -/
structure CacheElem where
  mod : Option Nat
  err : Option Err
deriving DecidableEq

/-- The entries of the `goModules` table: values either conform to the
`modules.Module` interface or not (`requireModule`'s type assertion). -/
inductive GoModVal
  | conforming
  | nonconforming
deriving DecidableEq

/-- The external collaborators consumed by `ModuleResolver`, as pure
functions: `loader.Resolve`, the `FileLoader` (`loadCJS`), the compiler's
`Parse` (returning the program and the isESM flag) and `Compile` (used by
`cjsModuleFromString`), goja's `ModuleFromAST`, and the `goModules` table. -/
structure Collab where
  loaderResolve : Locator → String → Except Err Locator
  loadCJS : Locator → String → Except Err Data
  parse : Data → Locator → Except Err (Prog × Bool)
  compile : Data → Locator → Except Err Prog
  moduleFromAST : Prog → Except Err Unit
  goModules : List (String × GoModVal)

/-- The mutable state of a `ModuleResolver` (cache, reverse map, a fresh-id
counter for record identity) plus instrumentation counters recording how
often each collaborator entry point has been invoked. -/
structure RState where
  cache : List (Locator × CacheElem)
  reverse : List (Option Nat × Locator)
  nextId : Nat
  resolveCount : Nat
  loadCount : Nat
  parseCount : Nat
  compileCount : Nat
deriving DecidableEq

/-- The result type of `resolve`: a `(goja.ModuleRecord, error)` pair,
either component possibly nil. -/
abbrev Res := Option Nat × Option Err

/-- `ModuleResolver.resolveSpecifier`: one `loader.Resolve` invocation. -/
def resolveSpecifier (c : Collab) (st : RState) (basePWD : Locator) (arg : String) :
    Except Err Locator × RState :=
  (c.loaderResolve basePWD arg, { st with resolveCount := st.resolveCount + 1 })

/-- `ModuleResolver.resolveLoaded`: re-resolve the specifier, retry the
cache, then `compiler.Parse`; an ESM program goes through
`goja.ModuleFromAST`, anything else through `cjsModuleFromString` (which
invokes `compiler.Compile`); the reverse map and the cache are updated with
the outcome before returning it. -/
def resolveLoaded (c : Collab) (st : RState) (basePWD : Locator) (arg : String)
    (data : Data) : Res × RState :=
  match resolveSpecifier c st basePWD arg with
  | (.error e, st) => ((none, some e), st)
  | (.ok specifier, st) =>
    match mapGet st.cache specifier with
    | some el => ((el.mod, el.err), st)
    | none =>
      let st := { st with parseCount := st.parseCount + 1 }
      match c.parse data specifier with
      | .error e =>
        ((none, some e), { st with cache := mapSet st.cache specifier ⟨none, some e⟩ })
      | .ok (prg, isESM) =>
        let r : Res × RState :=
          if isESM then
            match c.moduleFromAST prg with
            | .error e => ((none, some e), st)
            | .ok _ => ((some st.nextId, none), { st with nextId := st.nextId + 1 })
          else
            let st := { st with compileCount := st.compileCount + 1 }
            match c.compile data specifier with
            | .error e => ((none, some e), st)
            | .ok _ => ((some st.nextId, none), { st with nextId := st.nextId + 1 })
        ((r.1.1, r.1.2),
         { r.2 with
             reverse := (r.1.1, specifier) :: r.2.reverse,
             cache := mapSet r.2.cache specifier ⟨r.1.1, r.1.2⟩ })

/-- `ModuleResolver.resolve`: built-in specifiers are looked up in the
cache and then in the `goModules` table (`requireModule`), the outcome
being cached under the built-in name; other specifiers are canonicalized
(`resolveSpecifier`), looked up in the cache under the canonical locator,
and on a miss loaded (`loadCJS`, a load error being cached) and handed to
`resolveLoaded`. -/
def resolve (c : Collab) (st : RState) (basePWD : Locator) (arg : String) : Res × RState :=
  if isBuiltinSpec arg then
    match mapGet st.cache arg with
    | some el => ((el.mod, el.err), st)
    | none =>
      match mapGet c.goModules arg with
      | none =>
        let e := "unknown module: " ++ arg
        ((none, some e), { st with cache := mapSet st.cache arg ⟨none, some e⟩ })
      | some _ =>
        ((some st.nextId, none),
         { st with
             nextId := st.nextId + 1,
             cache := mapSet st.cache arg ⟨some st.nextId, none⟩ })
  else
    match resolveSpecifier c st basePWD arg with
    | (.error e, st) => ((none, some e), st)
    | (.ok specifier, st) =>
      match mapGet st.cache specifier with
      | some el => ((el.mod, el.err), st)
      | none =>
        let st := { st with loadCount := st.loadCount + 1 }
        match c.loadCJS specifier arg with
        | .error e =>
          ((none, some e), { st with cache := mapSet st.cache specifier ⟨none, some e⟩ })
        | .ok data => resolveLoaded c st basePWD arg data

/-- The three observable states of a goja evaluation promise. -/
inductive PromiseState
  | fulfilled
  | rejected (e : Err)
  | pending
deriving DecidableEq

/-- Outcome of a call that can return a value, return an error, or panic. -/
inductive EvalOutcome (α : Type)
  | ok (a : α)
  | errored (e : Err)
  | fatal (msg : String)
deriving DecidableEq

/-- The tail of `ModuleSystem.RunSourceData`: the switch over the
evaluation promise's state (rejected returns the error, fulfilled returns
the module, anything else panics). -/
def runSourceDataSettle (ps : PromiseState) (mod : Nat) : EvalOutcome Nat :=
  match ps with
  | .rejected e => .errored e
  | .fulfilled => .ok mod
  | .pending => .fatal "TLA not supported in k6 at the moment"

/-- The promise switch in `LegacyRequireImpl.getModuleInstanceFromGoModule`
(the require path for conforming host modules): the `default` case panics. -/
def goModuleRequireSettle (ps : PromiseState) : EvalOutcome Unit :=
  match ps with
  | .rejected e => .errored e
  | .fulfilled => .ok ()
  | .pending => .fatal "TLA in go modules is not supported in k6 at the moment"

/-- The promise switch in `LegacyRequireImpl.Require` for script (graph or
factory) modules: only the rejected case assigns `err`; the `default` case
is empty, so afterwards `err == nil` and the instance's exports are
returned. -/
def requireScriptSettle {α : Type} (ps : PromiseState) (instanceExports : α) :
    EvalOutcome α :=
  let err : Option Err :=
    match ps with
    | .rejected e => some e
    | .fulfilled => none
    | .pending => none
  match err with
  | some e => .errored e
  | none => .ok instanceExports

/-- The specifier/pointer handling of `LegacyRequireImpl.Require` (its
prologue), abstracted over the locator type `L` (`*url.URL`), the
collaborators `loader.Resolve` and `loader.Dir`, and `rest` — the remainder
of the call body, which observes the pointer value in effect while the call
is running (exactly what a nested `require` reads as its base). The result
is (call result, pointer value after the call returns, number of
`loader.Resolve` invocations). For a non-built-in specifier the saved
pointer is restored by a deferred assignment on every exit path. -/
def requireCall {L α : Type} (resolve' : L → String → Except Err L) (dir : L → L)
    (pwd : L) (specifier : String) (rest : L → Except Err α) :
    Except Err α × L × Nat :=
  if isBuiltinSpec specifier then
    (rest pwd, pwd, 0)
  else
    match resolve' pwd specifier with
    | .error e => (.error e, pwd, 1)
    | .ok fileURL =>
      if specifier = "" then
        (.error "require() can't be used with an empty specifier", pwd, 1)
      else
        (rest (dir fileURL), pwd, 1)

/-- The `Exports` record of a conforming host module:
`{Named: map[string]interface{}, Default: interface{}}`, both possibly nil. -/
structure Exports (α : Type) where
  Named : Option (List (String × α))
  Default : Option α
deriving DecidableEq

/-- A goja value as observed from the host-module wrappers: either the
conversion of a Go value (`rt.ToValue`), goja's null (`rt.ToValue(nil)`),
or an object with an allocation id and its properties. -/
inductive JVal (α : Type)
  | fromGo (v : α)
  | nullJ
  | objRef (id : Nat) (fields : List (String × α))
deriving DecidableEq

/-- `goModuleInstance`: the per-runtime instance of a conforming host
module; `defaultExport` is the memoization slot filled by
`getDefaultExport`. -/
structure GoModuleInstance (α : Type) where
  exports : Exports α
  defaultExport : Option (JVal α)
deriving DecidableEq

/-- `goModuleInstance.getDefaultExport`, threading an allocation counter
for `rt.NewObject()`: return the memoized value if present; else the
converted `Exports.Default` if present; else allocate a fresh object,
populate it with every named entry, and memoize it. -/
def getDefaultExport {α : Type} (gmi : GoModuleInstance α) (heap : Nat) :
    JVal α × GoModuleInstance α × Nat :=
  match gmi.defaultExport with
  | some v => (v, gmi, heap)
  | none =>
    match gmi.exports.Default with
    | some d => (JVal.fromGo d, { gmi with defaultExport := some (JVal.fromGo d) }, heap)
    | none =>
      let o : JVal α := JVal.objRef heap (gmi.exports.Named.getD [])
      (o, { gmi with defaultExport := some o }, heap + 1)

/-- Property access on a goja value (`Object.Get` after `ToObject`); for a
host value converted by `ToValue` the properties are outside this model. -/
def objGet {α : Type} (v : JVal α) (name : String) : Option (JVal α) :=
  match v with
  | .objRef _ fields => (mapGet fields name).map .fromGo
  | _ => none

/-- `goModuleInstance.GetBindingValue`: the `default` name goes through
`getDefaultExport`; with a non-nil `Named` mapping a named binding is
`rt.ToValue(exports.Named[name])` (a missing key being Go's nil, converted
to goja null); with a nil `Named` mapping the name is read off the derived
default object. -/
def goGetBindingValue {α : Type} (gmi : GoModuleInstance α) (heap : Nat) (name : String) :
    Option (JVal α) × GoModuleInstance α × Nat :=
  if name = "default" then
    (some (getDefaultExport gmi heap).1,
     (getDefaultExport gmi heap).2.1, (getDefaultExport gmi heap).2.2)
  else
    match gmi.exports.Named with
    | some named =>
      (some (match mapGet named name with
             | some v => JVal.fromGo v
             | none => JVal.nullJ), gmi, heap)
    | none =>
      (objGet (getDefaultExport gmi heap).1 name,
       (getDefaultExport gmi heap).2.1, (getDefaultExport gmi heap).2.2)

/-- A value in the bridged exports map of `toESModuleExports`: either a Go
export value or the boolean interop marker. -/
inductive MVal (α : Type)
  | goVal (v : α)
  | flag (b : Bool)
deriving DecidableEq

/-- The possible shapes returned by `toESModuleExports`. -/
inductive ESExports (α : Type)
  | defaultVal (v : Option α)
  | namedMap (m : List (String × α))
  | mergedMap (m : List (String × MVal α))
deriving DecidableEq

/-- `toESModuleExports`: nil `Named` returns `Default` as-is; nil `Default`
returns the `Named` mapping; otherwise a fresh map is built from every
named entry, then `result["default"] = exp.Default` and
`result["__esModule"] = true` are assigned (Go map overwrite semantics). -/
def toESModuleExports {α : Type} (exp : Exports α) : ESExports α :=
  match exp.Named with
  | none => .defaultVal exp.Default
  | some named =>
    match exp.Default with
    | none => .namedMap named
    | some d =>
      .mergedMap
        (mapSet (mapSet (named.map fun p => (p.1, MVal.goVal p.2))
                  "default" (.goVal d))
          "__esModule" (.flag true))

/-- The goja value domain observed by `cjsModuleInstance.ExecuteModule`
when it reads back `module.Get("exports")`. -/
inductive JSValue
  | nullV
  | undef
  | object (id : Nat)
deriving DecidableEq

/-- `goja.IsNull`: true exactly for goja's null (undefined is a distinct
value for which it is false). -/
def gojaIsNull : JSValue → Bool
  | .nullV => true
  | _ => false

/-- `goja.Value.ToObject`: objects convert to themselves; null and
undefined raise a TypeError. -/
def toObject : JSValue → Except Err Nat
  | .object id => .ok id
  | .nullV => .error "TypeError: Cannot convert undefined or null to object"
  | .undef => .error "TypeError: Cannot convert undefined or null to object"

/-- `cjsModuleInstance.ExecuteModule`: run the wrapper program, invoke the
factory body (abstracted as `callBody`, whose value is the final
`module.Get("exports")` after the call), then the read-back check: a null
final exports value yields the invalid-exports error, anything else is
converted with `ToObject` into the instance's exports object. -/
def cjsExecuteModule (runProg : Except Err Unit) (callBody : Except Err JSValue) :
    Except Err Nat :=
  match runProg with
  | .error e => .error e
  | .ok _ =>
    match callBody with
    | .error e => .error e
    | .ok finalExports =>
      if gojaIsNull finalExports then .error "exports must be an object"
      else toObject finalExports

/-- A goja value as seen by the non-conforming host module wrapper. -/
inductive JSVal
  | prim (s : String)
  | obj (id : Nat)
deriving DecidableEq

/-- `basicGoModuleInstance`: the converted native value
(`rt.ToValue(bgm.m).ToObject(rt)`), with its object id and its properties. -/
structure BasicGoModuleInstance where
  vId : Nat
  props : List (String × JSVal)
deriving DecidableEq

/-- `basicGoModuleInstance.GetBindingValue`: the name `default` returns the
whole converted value; any other name reads the property of that name
(nil, modelled as `none`, when absent). -/
def basicGetBindingValue (b : BasicGoModuleInstance) (n : String) : Option JSVal :=
  if n = "default" then some (.obj b.vId) else mapGet b.props n

/-- The `sync.Once`-guarded part of a `goModule` record: whether the once
already ran, and the exported-names slice it computed. -/
structure GoModuleRec where
  onceDone : Bool
  exportedNames : List String
deriving DecidableEq

/-- `goModule.Instantiate`'s effect on the record: on the first call the
once body runs, allocating `make([]string, len(named))` (a slice of
`len(named)` empty strings) and then appending every name of the `Named`
mapping to it; later calls leave the record unchanged. -/
def goModuleInstantiate {α : Type} (gm : GoModuleRec) (named : List (String × α)) :
    GoModuleRec :=
  if gm.onceDone then gm
  else { onceDone := true,
         exportedNames := List.replicate named.length "" ++ named.map Prod.fst }

/-- `goModule.GetExportedNames`: if the once has not yet run it panics
(modelled as `none`); otherwise it returns the stored slice. -/
def goModuleGetExportedNames (gm : GoModuleRec) : Option (List String) :=
  if gm.onceDone then some gm.exportedNames else none

/-! Concrete instances used by the closed-form counterexamples and
witnesses below. -/

/-- A concrete collaborator set: `"./m.js"` and `"./m2.js"` both
canonicalize to `"file:///m.js"`, everything else fails canonicalization;
the loader succeeds; the compiler classifies the source as a factory
(commonJS) module and compiles it. -/
def cEx : Collab where
  loaderResolve := fun _ arg =>
    if arg = "./m.js" ∨ arg = "./m2.js" then .ok "file:///m.js"
    else .error "malformed module specifier"
  loadCJS := fun _ _ => .ok "module.exports = 1"
  parse := fun _ _ => .ok ("prog", false)
  compile := fun _ _ => .ok "prog"
  moduleFromAST := fun _ => .ok ()
  goModules := [("k6/x/demo", .conforming)]

/-- The initial state of a freshly constructed `ModuleResolver`. -/
def rinit : RState where
  cache := []
  reverse := []
  nextId := 0
  resolveCount := 0
  loadCount := 0
  parseCount := 0
  compileCount := 0

/-- A concrete `loader.Resolve` over directory-segment paths for the
legacy-require scenario: `"./x"` specifiers are joined onto the base
directory. -/
def resolveW (base : List String) (spec : String) : Except Err (List String) :=
  if spec = "./sub/c.js" then .ok (base ++ ["sub", "c.js"])
  else if spec = "./d.js" then .ok (base ++ ["d.js"])
  else .error "local or remote path required"

/-- `loader.Dir` over directory-segment paths: drop the file segment. -/
def dirW (u : List String) : List String := u.dropLast

/-- A concrete non-conforming host module whose native value (object id 7)
has a property literally named `default`. -/
def bEx : BasicGoModuleInstance where
  vId := 7
  props := [("default", .prim "x")]

/-- A concrete conforming host module instance with only named exports. -/
def gmiEx : GoModuleInstance String where
  exports := { Named := some [("x", "1"), ("y", "2")], Default := none }
  defaultExport := none

/-- A concrete `Exports` record with both named exports and a default. -/
def expEx : Exports String where
  Named := some [("x", "1"), ("y", "2")]
  Default := some "D"

/-- A fresh `goModule` record (its `sync.Once` has not run yet). -/
def gmEx : GoModuleRec where
  onceDone := false
  exportedNames := []

/-! Helper lemmas about the Go-map model. -/

theorem mapGet_mapSet_self {β : Type} (m : List (String × β)) (k : String) (v : β) :
    mapGet (mapSet m k v) k = some v := by
  induction m with
  | nil => simp [mapGet, mapSet]
  | cons p rest ih =>
    obtain ⟨k', v'⟩ := p
    by_cases h : k' = k
    · simp [mapSet, h, mapGet]
    · simp [mapSet, h, mapGet, ih]

theorem mapGet_mapSet_ne {β : Type} (m : List (String × β)) (k k' : String) (v : β)
    (h : k' ≠ k) : mapGet (mapSet m k v) k' = mapGet m k' := by
  have hkk : ¬k = k' := fun hc => h hc.symm
  induction m with
  | nil => simp [mapGet, mapSet, hkk]
  | cons p rest ih =>
    obtain ⟨k₀, v₀⟩ := p
    by_cases h0 : k₀ = k
    · subst h0
      simp [mapSet, mapGet, hkk]
    · by_cases h1 : k₀ = k'
      · simp [mapSet, h0, mapGet, h1, h]
      · simp [mapSet, h0, mapGet, h1, ih]

theorem mapGet_map_entries {α β : Type} (f : α → β) (m : List (String × α)) (k : String) :
    mapGet (m.map fun p => (p.1, f p.2)) k = (mapGet m k).map f := by
  induction m with
  | nil => simp [mapGet]
  | cons p rest ih =>
    obtain ⟨k', v'⟩ := p
    by_cases h : k' = k
    · simp [mapGet, h]
    · simp [mapGet, h, ih]

/-! Claim theorems. -/

/-- C2 counterexample: in `LegacyRequireImpl.Require` the promise switch
for a script module has an empty `default` case, so an evaluation promise
left pending produces a normal return of the module's exports — refuting
the claim that the pending branch never produces a normal return in every
evaluation path. -/
theorem require_script_pending_normal_return :
    requireScriptSettle PromiseState.pending (0 : Nat) = EvalOutcome.ok 0 := rfl

/-- C2 (amended): a pending evaluation promise makes the root run
(`ModuleSystem.RunSourceData`) and the legacy require of a conforming host
module (`getModuleInstanceFromGoModule`) halt loudly, but the legacy
require of a script module treats a pending promise like a fulfilled one
and returns the exports normally. -/
theorem pending_evaluation_outcomes :
    (∀ m : Nat, runSourceDataSettle .pending m
        = .fatal "TLA not supported in k6 at the moment")
    ∧ goModuleRequireSettle .pending
        = .fatal "TLA in go modules is not supported in k6 at the moment"
    ∧ ∀ x : Nat, requireScriptSettle .pending x = .ok x :=
  ⟨fun _ => rfl, rfl, fun _ => rfl⟩

/-- C6 counterexample: a factory module whose final `module.exports` value
is undefined (a nullish value) does not fail with the invalid-exports
error — `goja.IsNull` is false for undefined, so the failure instead comes
from the `ToObject` conversion as a TypeError. -/
theorem cjs_undefined_exports_counterexample :
    ∃ msg, cjsExecuteModule (.ok ()) (.ok JSValue.undef) = .error msg
      ∧ msg ≠ "exports must be an object" :=
  ⟨"TypeError: Cannot convert undefined or null to object", rfl, by decide⟩

/-- C6 (amended): after the factory body returns, a final `module.exports`
value of null fails evaluation with the invalid-exports error; a final
value of undefined also fails evaluation, but with a TypeError from the
object conversion rather than the invalid-exports error; a final object
value becomes the instance's exports. -/
theorem cjs_final_exports_check :
    cjsExecuteModule (.ok ()) (.ok JSValue.nullV) = .error "exports must be an object"
    ∧ cjsExecuteModule (.ok ()) (.ok JSValue.undef)
        = .error "TypeError: Cannot convert undefined or null to object"
    ∧ ∀ id : Nat, cjsExecuteModule (.ok ()) (.ok (JSValue.object id)) = .ok id :=
  ⟨rfl, rfl, fun _ => rfl⟩

/-- C9 counterexample: a non-conforming host module whose wrapped value has
a property literally named `default` (here mapped to the primitive "x")
still resolves the default-name binding to the whole wrapped object (id 7),
not to that property — refuting the claim's final clause. -/
theorem basic_default_binding_counterexample :
    mapGet bEx.props "default" = some (JSVal.prim "x")
    ∧ basicGetBindingValue bEx "default" = some (JSVal.obj 7)
    ∧ some (JSVal.obj 7) ≠ some (JSVal.prim "x") := by decide

/-- C9 (amended): for a non-conforming host module every property other
than `default` is exposed as the named binding of that name, and the
default-name binding always resolves to the whole wrapped value — also
when one of the value's properties is literally named `default`. -/
theorem basic_module_binding_values (b : BasicGoModuleInstance) (n : String)
    (h : n ≠ "default") :
    basicGetBindingValue b n = mapGet b.props n
    ∧ basicGetBindingValue b "default" = some (JSVal.obj b.vId) := by
  simp [basicGetBindingValue, h]

/-- C9 witness: the amended theorem evaluated on the concrete instance. -/
theorem basic_module_binding_values_witness :
    basicGetBindingValue bEx "x" = none
    ∧ basicGetBindingValue bEx "default" = some (JSVal.obj 7) := by
  have h := basic_module_binding_values bEx "x" (by decide)
  exact ⟨h.1.trans (by decide), h.2⟩

/-- C10: when a conforming host module with a non-empty `Named` mapping of
n entries is first instantiated, the exported-names slice is allocated with
length n (so its first n entries are empty strings) and the n names are
appended to it, making its length 2n; `GetExportedNames` returns exactly
this slice, and later instantiations leave it unchanged. -/
theorem goModule_exported_names_double_length {α : Type} (gm : GoModuleRec)
    (named : List (String × α)) (h0 : gm.onceDone = false) (_hn : 0 < named.length) :
    (goModuleInstantiate gm named).exportedNames.length = 2 * named.length
    ∧ (goModuleInstantiate gm named).exportedNames.take named.length
        = List.replicate named.length ""
    ∧ goModuleGetExportedNames (goModuleInstantiate gm named)
        = some (goModuleInstantiate gm named).exportedNames
    ∧ ∀ (named2 : List (String × α)),
        goModuleInstantiate (goModuleInstantiate gm named) named2
          = goModuleInstantiate gm named := by
  refine ⟨?_, ?_, ?_, ?_⟩
  · simp [goModuleInstantiate, h0, two_mul]
  · simp only [goModuleInstantiate, h0, Bool.false_eq_true, if_false]
    rw [List.take_left' (by simp)]
  · simp [goModuleInstantiate, goModuleGetExportedNames, h0]
  · intro named2
    simp [goModuleInstantiate, h0]

/-- C10 witness: the theorem evaluated on a concrete two-entry mapping. -/
theorem goModule_exported_names_double_length_witness :
    (goModuleInstantiate gmEx [("a", "1"), ("b", "2")]).exportedNames.length = 2 * 2
    ∧ (goModuleInstantiate gmEx [("a", "1"), ("b", "2")]).exportedNames.take 2
        = List.replicate 2 ""
    ∧ goModuleGetExportedNames (goModuleInstantiate gmEx [("a", "1"), ("b", "2")])
        = some (goModuleInstantiate gmEx [("a", "1"), ("b", "2")]).exportedNames := by
  have h := goModule_exported_names_double_length gmEx [("a", "1"), ("b", "2")]
    rfl (by decide)
  exact ⟨h.1, h.2.1, h.2.2.1⟩

/-- C4: for a legacy require with a non-built-in specifier that resolves
successfully, the currently-required-file pointer is read as the resolution
base (the resolver is applied to it), the rest of the call — hence any
nested require — observes the resolved file's directory as the pointer, the
pointer is restored to its prior value when the call returns, and it is
also restored when the call errors; consequently a nested require performed
inside the call resolves against the resolved file's directory, not the
outer base. -/
theorem require_pwd_protocol {L α : Type}
    (resolve' : L → String → Except Err L) (dir : L → L)
    (pwd : L) (spec spec2 : String) (rest rest2 : L → Except Err α) (f : L)
    (hb : isBuiltinSpec spec = false) (hs : spec ≠ "")
    (hr : resolve' pwd spec = .ok f) :
    requireCall resolve' dir pwd spec rest = (rest (dir f), pwd, 1)
    ∧ requireCall resolve' dir pwd spec
        (fun du => (requireCall resolve' dir du spec2 rest2).1)
      = ((requireCall resolve' dir (dir f) spec2 rest2).1, pwd, 1)
    ∧ ∀ (e : Err) (spec' : String) (rest' : L → Except Err α),
        isBuiltinSpec spec' = false → resolve' pwd spec' = .error e →
        requireCall resolve' dir pwd spec' rest' = (.error e, pwd, 1) := by
  refine ⟨?_, ?_, ?_⟩
  · simp [requireCall, hb, hr, hs]
  · simp [requireCall, hb, hr, hs]
  · intro e spec' rest' hb' hr'
    simp [requireCall, hb', hr']

/-- C4 witness: the spec's scenario. With the pointer at directory `/a`,
requiring `./sub/c.js` and, inside it, requiring `./d.js` resolves `./d.js`
against `/a/sub` (the directory of `c.js`), not against `/a`; the pointer
is restored to `/a` when the outer call returns. -/
theorem require_pwd_protocol_witness :
    isBuiltinSpec "./sub/c.js" = false
    ∧ resolveW ["a"] "./sub/c.js" = .ok ["a", "sub", "c.js"]
    ∧ requireCall resolveW dirW ["a"] "./sub/c.js"
        (fun du => (requireCall resolveW dirW du "./d.js" Except.ok).1)
      = ((requireCall resolveW dirW ["a", "sub"] "./d.js" Except.ok).1, ["a"], 1)
    ∧ (requireCall resolveW dirW ["a", "sub"] "./d.js" Except.ok).1
        = Except.ok ["a", "sub"]
    ∧ (requireCall resolveW dirW ["a"] "./d.js" Except.ok).1 = Except.ok ["a"] := by
  have h := require_pwd_protocol resolveW dirW ["a"] "./sub/c.js" "./d.js"
    (fun du => (requireCall resolveW dirW du "./d.js" Except.ok).1) Except.ok
    ["a", "sub", "c.js"] (by decide) (by decide) (by decide)
  exact ⟨by decide, by decide, h.2.1, by decide, by decide⟩

/-- C5: for a conforming host module instance whose `Exports` has no
`Default` and a non-empty `Named` mapping, the first read of the default
binding allocates exactly one fresh object aggregating all named entries
and memoizes it, and a second read returns the very same object (same
allocation id) without allocating again or changing the instance. -/
theorem default_export_memoized {α : Type} (gmi : GoModuleInstance α) (heap : Nat)
    (m : List (String × α))
    (h0 : gmi.defaultExport = none) (hd : gmi.exports.Default = none)
    (hn : gmi.exports.Named = some m) (_hne : m ≠ []) :
    (goGetBindingValue gmi heap "default").1 = some (JVal.objRef heap m)
    ∧ (goGetBindingValue gmi heap "default").2.2 = heap + 1
    ∧ goGetBindingValue (goGetBindingValue gmi heap "default").2.1
        (goGetBindingValue gmi heap "default").2.2 "default"
      = (some (JVal.objRef heap m), (goGetBindingValue gmi heap "default").2.1,
         heap + 1) := by
  simp [goGetBindingValue, getDefaultExport, h0, hd, hn]

/-- C5 witness: the theorem evaluated on the concrete instance with named
exports x and y, starting from allocation counter 0. -/
theorem default_export_memoized_witness :
    (goGetBindingValue gmiEx 0 "default").1
      = some (JVal.objRef 0 [("x", "1"), ("y", "2")])
    ∧ goGetBindingValue (goGetBindingValue gmiEx 0 "default").2.1
        (goGetBindingValue gmiEx 0 "default").2.2 "default"
      = (some (JVal.objRef 0 [("x", "1"), ("y", "2")]),
         (goGetBindingValue gmiEx 0 "default").2.1, 1) := by
  have h := default_export_memoized gmiEx 0 [("x", "1"), ("y", "2")]
    rfl rfl rfl (by decide)
  exact ⟨h.1, h.2.2⟩

/-- C7 counterexample: a legacy require of the empty specifier first
invokes the resolver with the empty specifier (one resolution call, not
zero), and since that resolution fails, the returned error is the
resolver's error, not the empty-specifier error — refuting both the
"returns an empty-specifier error" and the "performs no resolution work"
parts of the claim. -/
theorem require_empty_specifier_counterexample :
    requireCall resolveW dirW ["a"] "" Except.ok
      = (.error "local or remote path required", ["a"], 1)
    ∧ "local or remote path required" ≠ "require() can't be used with an empty specifier"
    ∧ (requireCall resolveW dirW ["a"] "" Except.ok).2.2 ≠ 0 := by decide

/-- C7 (amended): the empty-specifier check runs only after the
pointer-update block, so a legacy require of the empty specifier first
invokes the resolver once with the empty specifier against the current
base; if that resolution fails, its error is returned instead of the
empty-specifier error; if it succeeds, the empty-specifier error is
returned; in both cases the pointer is back at its prior value when the
call returns. -/
theorem require_empty_specifier_checked_late {L α : Type}
    (resolve' : L → String → Except Err L) (dir : L → L) (pwd : L)
    (rest : L → Except Err α) :
    (∀ e, resolve' pwd "" = .error e →
      requireCall resolve' dir pwd "" rest = (.error e, pwd, 1))
    ∧ ∀ f, resolve' pwd "" = .ok f →
      requireCall resolve' dir pwd "" rest
        = (.error "require() can't be used with an empty specifier", pwd, 1) := by
  have hb : isBuiltinSpec "" = false := by decide
  constructor
  · intro e hr
    simp [requireCall, hb, hr]
  · intro f hr
    simp [requireCall, hb, hr]

/-- C7 witness: the amended theorem evaluated on the concrete resolver
(which rejects the empty specifier). -/
theorem require_empty_specifier_checked_late_witness :
    resolveW ["a"] "" = .error "local or remote path required"
    ∧ requireCall resolveW dirW ["a"] "" Except.ok
        = (.error "local or remote path required", ["a"], 1) :=
  ⟨rfl, (require_empty_specifier_checked_late resolveW dirW ["a"] Except.ok).1 _ rfl⟩

/-- C8: legacy require bridges a conforming host module's `Exports` into a
single flat value: with a nil `Named` mapping the default is returned as
the value; with a nil `Default` the named mapping itself is the value; with
both present a new map is built that contains every named entry (under
every key other than the two reserved ones), the default under the
`default` key, and the `__esModule` interop marker set to true. -/
theorem toESModuleExports_bridge {α : Type} (exp : Exports α) :
    (exp.Named = none → toESModuleExports exp = .defaultVal exp.Default)
    ∧ (∀ m, exp.Named = some m → exp.Default = none →
        toESModuleExports exp = .namedMap m)
    ∧ ∀ m d, exp.Named = some m → exp.Default = some d →
        ∃ entries, toESModuleExports exp = .mergedMap entries
          ∧ mapGet entries "default" = some (.goVal d)
          ∧ mapGet entries "__esModule" = some (.flag true)
          ∧ ∀ k, k ≠ "default" → k ≠ "__esModule" →
              mapGet entries k = (mapGet m k).map MVal.goVal := by
  refine ⟨?_, ?_, ?_⟩
  · intro hn
    simp [toESModuleExports, hn]
  · intro m hn hd
    simp [toESModuleExports, hn, hd]
  · intro m d hn hd
    refine ⟨mapSet (mapSet (m.map fun p => (p.1, MVal.goVal p.2)) "default" (.goVal d))
        "__esModule" (.flag true), ?_, ?_, mapGet_mapSet_self _ _ _, ?_⟩
    · simp [toESModuleExports, hn, hd]
    · rw [mapGet_mapSet_ne _ _ _ _ (by decide), mapGet_mapSet_self]
    · intro k hk1 hk2
      rw [mapGet_mapSet_ne _ _ _ _ hk2, mapGet_mapSet_ne _ _ _ _ hk1,
        mapGet_map_entries]

/-- C8 witness: the bridge evaluated on a concrete `Exports` record with
named exports x, y and a default D. -/
theorem toESModuleExports_bridge_witness :
    ∃ entries, toESModuleExports expEx = .mergedMap entries
      ∧ mapGet entries "default" = some (.goVal "D")
      ∧ mapGet entries "__esModule" = some (.flag true)
      ∧ mapGet entries "x" = some (.goVal "1") := by
  obtain ⟨entries, he, hd, hm, hk⟩ :=
    (toESModuleExports_bridge expEx).2.2 [("x", "1"), ("y", "2")] "D" rfl rfl
  exact ⟨entries, he, hd, hm,
    (hk "x" (by decide) (by decide)).trans (by decide)⟩

/-- A cache hit for a non-built-in specifier: canonicalization runs once
more but the cached outcome is returned unchanged — no loading, parsing or
compiling, no cache write. -/
theorem resolve_cache_hit (c : Collab) (st : RState) (base : Locator) (arg : String)
    (L : Locator) (el : CacheElem)
    (hb : isBuiltinSpec arg = false) (hr : c.loaderResolve base arg = .ok L)
    (hhit : mapGet st.cache L = some el) :
    resolve c st base arg
      = ((el.mod, el.err), { st with resolveCount := st.resolveCount + 1 }) := by
  simp [resolve, resolveSpecifier, hb, hr, hhit]

/-- A cache miss for a non-built-in specifier whose canonicalization
succeeds: whatever the outcome (load error, parse error, record), it is
written to the cache under the canonical locator, the loader runs exactly
once, and the parse and compile entry points each run at most once. -/
theorem resolve_miss_first (c : Collab) (st0 : RState) (base : Locator) (arg : String)
    (L : Locator)
    (hb : isBuiltinSpec arg = false) (hr : c.loaderResolve base arg = .ok L)
    (hmiss : mapGet st0.cache L = none) :
    (resolve c st0 base arg).2.cache
        = mapSet st0.cache L
            ⟨(resolve c st0 base arg).1.1, (resolve c st0 base arg).1.2⟩
    ∧ (resolve c st0 base arg).2.loadCount = st0.loadCount + 1
    ∧ (resolve c st0 base arg).2.parseCount ≤ st0.parseCount + 1
    ∧ (resolve c st0 base arg).2.compileCount ≤ st0.compileCount + 1 := by
  simp only [resolve, resolveSpecifier, hb, Bool.false_eq_true, if_false, hr, hmiss]
  cases hload : c.loadCJS L arg with
  | error e => simp
  | ok data =>
    simp only [resolveLoaded, resolveSpecifier, hr, hmiss]
    cases hparse : c.parse data L with
    | error e => simp
    | ok pb =>
      obtain ⟨prg, isESM⟩ := pb
      cases isESM with
      | true =>
        cases hast : c.moduleFromAST prg with
        | error e => simp [hast]
        | ok u => simp [hast]
      | false =>
        cases hcomp : c.compile data L with
        | error e => simp [hcomp]
        | ok p => simp [hcomp]

/-- C1 (amended): when two specifiers A and B canonicalize to the same
locator L not yet in the cache, resolving A and then B returns the
identical outcome (the same record identity, or the same error), the
outcome of resolving A is cached under L, the second resolution only
re-runs canonicalization (one more `loader.Resolve` call) and changes
nothing else, the Loader runs exactly once in total, and each of the
Compiler's two entry points (`Parse`, and `Compile` for a factory-format
unit) runs at most once in total — so the Compiler is invoked at most
twice, not at most once, in total for L. -/
theorem resolve_shared_locator_cached (c : Collab) (st0 : RState) (base : Locator)
    (A B L : String)
    (hA : isBuiltinSpec A = false) (hB : isBuiltinSpec B = false)
    (hrA : c.loaderResolve base A = .ok L) (hrB : c.loaderResolve base B = .ok L)
    (hmiss : mapGet st0.cache L = none) :
    (resolve c (resolve c st0 base A).2 base B).1 = (resolve c st0 base A).1
    ∧ mapGet (resolve c st0 base A).2.cache L
        = some ⟨(resolve c st0 base A).1.1, (resolve c st0 base A).1.2⟩
    ∧ (resolve c (resolve c st0 base A).2 base B).2
        = { (resolve c st0 base A).2 with
            resolveCount := (resolve c st0 base A).2.resolveCount + 1 }
    ∧ (resolve c st0 base A).2.loadCount = st0.loadCount + 1
    ∧ (resolve c st0 base A).2.parseCount ≤ st0.parseCount + 1
    ∧ (resolve c st0 base A).2.compileCount ≤ st0.compileCount + 1 := by
  obtain ⟨hcache, hload, hparse, hcomp⟩ :=
    resolve_miss_first c st0 base A L hA hrA hmiss
  have hhit : mapGet (resolve c st0 base A).2.cache L
      = some ⟨(resolve c st0 base A).1.1, (resolve c st0 base A).1.2⟩ := by
    rw [hcache]; exact mapGet_mapSet_self _ _ _
  have h2 := resolve_cache_hit c (resolve c st0 base A).2 base B L
    ⟨(resolve c st0 base A).1.1, (resolve c st0 base A).1.2⟩ hB hrB hhit
  refine ⟨?_, hhit, ?_, hload, hparse, hcomp⟩
  · rw [h2]
  · rw [h2]

/-- C1 counterexample: resolving one factory-format (commonJS) specifier a
single time invokes the Compiler twice — once through `compiler.Parse` in
`resolveLoaded` and once through `compiler.Compile` in
`cjsModuleFromString` — refuting "the Loader and Compiler are invoked at
most once in total for that Locator". -/
theorem resolve_cjs_double_compile_counterexample :
    (resolve cEx rinit "file:///" "./m.js").2.parseCount
        + (resolve cEx rinit "file:///" "./m.js").2.compileCount = 2
    ∧ ¬((resolve cEx rinit "file:///" "./m.js").2.parseCount
        + (resolve cEx rinit "file:///" "./m.js").2.compileCount ≤ 1) := by decide

/-- C1 witness: the amended theorem evaluated on a concrete resolver state
where "./m.js" and "./m2.js" canonicalize to the same locator. -/
theorem resolve_shared_locator_cached_witness :
    (resolve cEx (resolve cEx rinit "file:///" "./m.js").2 "file:///" "./m2.js").1
      = (resolve cEx rinit "file:///" "./m.js").1
    ∧ (resolve cEx rinit "file:///" "./m.js").1 = (some 0, none)
    ∧ (resolve cEx (resolve cEx rinit "file:///" "./m.js").2 "file:///" "./m2.js").2.loadCount
      = 1 := by
  have h := resolve_shared_locator_cached cEx rinit "file:///" "./m.js" "./m2.js"
    "file:///m.js" (by decide) (by decide) rfl rfl rfl
  exact ⟨h.1, by decide, by decide⟩

/-- C3 counterexample: a malformed specifier (one that fails
canonicalization) produces an error that is NOT stored in the resolution
cache — the cache stays empty — and a repeated resolution re-runs
canonicalization (the `loader.Resolve` count goes from 1 to 2), refuting
the claim for the malformed-specifier case. -/
theorem malformed_specifier_error_not_cached :
    (resolve cEx rinit "file:///" "bad").1 = (none, some "malformed module specifier")
    ∧ (resolve cEx rinit "file:///" "bad").2.cache = []
    ∧ (resolve cEx rinit "file:///" "bad").2.resolveCount = 1
    ∧ (resolve cEx (resolve cEx rinit "file:///" "bad").2 "file:///" "bad").2.resolveCount
      = 2
    ∧ (resolve cEx (resolve cEx rinit "file:///" "bad").2 "file:///" "bad").2.cache
      = [] := by decide

/-- C3 (amended): unknown-built-in, load and compile failures are cached as
errors — keyed by the built-in name or the canonical locator — so a repeat
resolution returns the cached error without re-running the goModules
lookup, the Loader or the Compiler (for file specifiers only
canonicalization is re-run); malformed-specifier failures, by contrast,
have no canonical locator, are not cached, and re-run canonicalization on
every attempt. -/
theorem failed_resolution_caching (c : Collab) (st0 : RState) (base : Locator) :
    (∀ arg, isBuiltinSpec arg = true → mapGet c.goModules arg = none →
      mapGet st0.cache arg = none →
      (resolve c st0 base arg).1 = (none, some ("unknown module: " ++ arg))
      ∧ resolve c (resolve c st0 base arg).2 base arg
          = ((none, some ("unknown module: " ++ arg)), (resolve c st0 base arg).2))
    ∧ (∀ arg L e, isBuiltinSpec arg = false → c.loaderResolve base arg = .ok L →
        mapGet st0.cache L = none → c.loadCJS L arg = .error e →
        (resolve c st0 base arg).1 = (none, some e)
        ∧ (resolve c st0 base arg).2.loadCount = st0.loadCount + 1
        ∧ (resolve c st0 base arg).2.parseCount = st0.parseCount
        ∧ resolve c (resolve c st0 base arg).2 base arg
            = ((none, some e),
               { (resolve c st0 base arg).2 with
                 resolveCount := (resolve c st0 base arg).2.resolveCount + 1 }))
    ∧ ∀ arg L data e, isBuiltinSpec arg = false → c.loaderResolve base arg = .ok L →
        mapGet st0.cache L = none → c.loadCJS L arg = .ok data →
        c.parse data L = .error e →
        (resolve c st0 base arg).1 = (none, some e)
        ∧ (resolve c st0 base arg).2.parseCount = st0.parseCount + 1
        ∧ (resolve c st0 base arg).2.compileCount = st0.compileCount
        ∧ resolve c (resolve c st0 base arg).2 base arg
            = ((none, some e),
               { (resolve c st0 base arg).2 with
                 resolveCount := (resolve c st0 base arg).2.resolveCount + 1 }) := by
  refine ⟨?_, ?_, ?_⟩
  · intro arg hbi hgm hmiss
    have h1 : resolve c st0 base arg
        = ((none, some ("unknown module: " ++ arg)),
           { st0 with cache := mapSet st0.cache arg ⟨none, some ("unknown module: " ++ arg)⟩ }) := by
      simp [resolve, hbi, hgm, hmiss]
    rw [h1]
    refine ⟨rfl, ?_⟩
    simp [resolve, hbi, mapGet_mapSet_self]
  · intro arg L e hbf hr hmiss hload
    have h1 : resolve c st0 base arg
        = ((none, some e),
           { st0 with
               resolveCount := st0.resolveCount + 1,
               loadCount := st0.loadCount + 1,
               cache := mapSet st0.cache L ⟨none, some e⟩ }) := by
      simp [resolve, resolveSpecifier, hbf, hr, hmiss, hload]
    rw [h1]
    refine ⟨rfl, rfl, rfl, ?_⟩
    exact resolve_cache_hit c _ base arg L ⟨none, some e⟩ hbf hr
      (mapGet_mapSet_self _ _ _)
  · intro arg L data e hbf hr hmiss hload hparse
    have h1 : resolve c st0 base arg
        = ((none, some e),
           { st0 with
               resolveCount := st0.resolveCount + 2,
               loadCount := st0.loadCount + 1,
               parseCount := st0.parseCount + 1,
               cache := mapSet st0.cache L ⟨none, some e⟩ }) := by
      simp [resolve, resolveLoaded, resolveSpecifier, hbf, hr, hmiss, hload, hparse]
    rw [h1]
    refine ⟨rfl, rfl, rfl, ?_⟩
    exact resolve_cache_hit c _ base arg L ⟨none, some e⟩ hbf hr
      (mapGet_mapSet_self _ _ _)

/-- C3 witness: the amended theorem evaluated on the concrete resolver for
an unknown built-in name. -/
theorem failed_resolution_caching_witness :
    (resolve cEx rinit "file:///" "k6/nope").1 = (none, some "unknown module: k6/nope")
    ∧ resolve cEx (resolve cEx rinit "file:///" "k6/nope").2 "file:///" "k6/nope"
        = ((none, some "unknown module: k6/nope"),
           (resolve cEx rinit "file:///" "k6/nope").2) := by
  exact (failed_resolution_caching cEx rinit "file:///").1 "k6/nope"
    (by decide) (by decide) rfl

end K6Modules
